import Mathlib

/-!
Verification of the orchestration layer of
`src/FinishThisIdea-Phase2/src/soulfra-scripts/distributed-system.py`
(the SOULFRA decentralized platform).

The Python code is shallowly embedded: pure fragments become Lean
functions, the platform's mutable `monitoring_data` dict and `running`
flag become an explicit `Platform` state threaded through the
operations, and calls into the external engines (`UnifiedDatabaseLayer`,
`DecentralizedSearchEngine`, `RuleEnforcementEngine`, which live outside
this repository snapshot) are passed in as parameters: an
`Except String alpha` models an awaited engine call that either returns
a value or raises an exception.  Python ints are `Int` (Python `%` with
a positive modulus agrees with `Int.emod`), dicts with string keys are
association lists, and a raised-and-uncaught exception is an
`Except.error` / `HttpOutcome.unhandled` value.
-/

namespace DistributedSystem

/-- Lookup in a string-keyed dict, mirroring Python `params.get(key, default)`. -/
def dictGet (params : List (String × String)) (key default : String) : String :=
  match params.find? (fun kv => kv.1 = key) with
  | some kv => kv.2
  | none => default

/-- The sharding rule registered for collection `search_index` at
`_setup_databases` (distributed-system.py line 102-103):
`lambda params: f"search_shard_{hash(params.get('doc_id', '')) % 4}"`.
Python's process-wide string hash is an arbitrary fixed function
`pyhash : String -> Int`; Python `%` with a positive right operand is
`Int.emod` (result in `[0, 4)`). -/
def searchIndexRule (pyhash : String → Int) (params : List (String × String)) : String :=
  "search_shard_" ++ toString (pyhash (dictGet params "doc_id" "") % 4)

/-- The names registered in the store registry during `_setup_databases`
(lines 83-99): `main`, the four shards `search_shard_0 .. search_shard_3`
from the `for i in range(4)` loop, and `monitoring`. -/
def setupDatabaseNames : List String :=
  ["main"] ++ (List.range 4).map (fun i => "search_shard_" ++ toString i) ++ ["monitoring"]

/-- A rule violation as produced by the rule engine and consumed by
`_initial_rule_scan` / `enforce_rules` (only the fields the platform
code reads). -/
structure Violation where
  file : String
  rule : String
  severity : String
  description : String
deriving DecidableEq, Repr

/-- The aggregate outcome dict returned by `auto_fix_violations`
(the platform reads `fix_results['fixed']` and returns the pair). -/
structure FixResults where
  fixed : Nat
  failed : Nat
deriving DecidableEq, Repr

/-- Per-shard search statistics payload (opaque to the platform code). -/
abbrev SearchStats := List (String × Nat)

/-- Rule-enforcement report payload (opaque to the platform code). -/
abbrev RuleReport := List (String × String)

/-- The platform's `monitoring_data` dict.  `start_time`,
`queries_processed`, `violations_fixed` and `databases_online` are set
in `__init__`; `search_stats` and `rule_report` are only added later by
the monitor loop, hence `Option`. -/
structure MonitoringData where
  start_time : Nat
  queries_processed : Nat
  violations_fixed : Nat
  databases_online : Nat
  search_stats : Option SearchStats
  rule_report : Option RuleReport
deriving DecidableEq, Repr

/-- The `monitoring_data` dict as initialized in
`DecentralizedPlatform.__init__`. -/
def initMonitoring (startTime : Nat) : MonitoringData :=
  { start_time := startTime
    queries_processed := 0
    violations_fixed := 0
    databases_online := 0
    search_stats := none
    rule_report := none }

/-- The platform's mutable state: the `monitoring_data` dict and the
`running` flag (`self.running`, set `True` by `_start_monitoring` and
cleared to `False` on shutdown). -/
structure Platform where
  monitoring : MonitoringData
  running : Bool
deriving DecidableEq, Repr

/-- The error taxonomy of the spec (section 7).  The platform code in
this file only ever produces `other` (a propagated Python exception);
`platformNotRunning` exists so that claims about it can be stated. -/
inductive PlatformError where
  | platformNotRunning
  | other (msg : String)
deriving DecidableEq, Repr

/-- `DecentralizedPlatform.search` (lines 188-210): builds the query,
awaits the engine, increments `queries_processed`, and converts results
to dicts (a field-preserving reshape, modeled as the identity on the
result list).  There is no check of `self.running`; an engine exception
propagates. -/
def searchOp {α : Type} (engine : Except String (List α)) (p : Platform) :
    Except PlatformError (List α × Platform) :=
  match engine with
  | .error e => .error (.other e)
  | .ok rs =>
      .ok (rs, { p with monitoring :=
        { p.monitoring with queries_processed := p.monitoring.queries_processed + 1 } })

/-- `DecentralizedPlatform.query_database` (lines 232-235): awaits
`federated_search` and returns its rows unchanged.  No check of
`self.running`. -/
def queryDatabase {α : Type} (engine : Except String (List α)) (p : Platform) :
    Except PlatformError (List α × Platform) :=
  match engine with
  | .error e => .error (.other e)
  | .ok rs => .ok (rs, p)

/-- The status dict built by `DecentralizedPlatform.get_status`
(lines 237-249). -/
structure StatusSnapshot where
  status : String
  uptime_seconds : Nat
  databases_online : Nat
  queries_processed : Nat
  violations_fixed : Nat
  search_stats : SearchStats
  rule_report : RuleReport
deriving DecidableEq, Repr

/-- `DecentralizedPlatform.get_status`: always returns the literal
status `"online"` with the current counters; `search_stats` and
`rule_report` default to the empty dict via `.get(..., {})`.  No check
of `self.running`. -/
def getStatus (now : Nat) (p : Platform) : StatusSnapshot :=
  { status := "online"
    uptime_seconds := now - p.monitoring.start_time
    databases_online := p.monitoring.databases_online
    queries_processed := p.monitoring.queries_processed
    violations_fixed := p.monitoring.violations_fixed
    search_stats := p.monitoring.search_stats.getD []
    rule_report := p.monitoring.rule_report.getD [] }

/-- The critical-violation collection loop of `_initial_rule_scan`
(lines 155-157): starts from an empty list and, for each file's
violation list, extends with the sub-list whose severity is
`critical`. -/
def criticalViolations (violations : List (List Violation)) : List Violation :=
  violations.foldl (fun acc fv => acc ++ fv.filter (fun v => v.severity == "critical")) []

/-- `DecentralizedPlatform.enforce_rules` (lines 212-230).  The engine
outcomes are parameters: `scanFileResult` is what `scan_file` returns
for the given path, `scanDirResult` what `scan_directory` returns
(per-file violation lists), and `autoFix` the behaviour of
`auto_fix_violations`.  In the single-file branch the fix results are
returned without touching `monitoring_data`; only the whole-tree branch
does `violations_fixed += fix_results['fixed']`. -/
def enforceRules (filePath : Option String) (scanFileResult : List Violation)
    (scanDirResult : List (List Violation)) (autoFix : List Violation → FixResults)
    (p : Platform) : FixResults × Platform :=
  match filePath with
  | some _ =>
      if scanFileResult.isEmpty then (⟨0, 0⟩, p)
      else (autoFix scanFileResult, p)
  | none =>
      let allViolations := scanDirResult.flatten
      if allViolations.isEmpty then (⟨0, 0⟩, p)
      else
        let fr := autoFix allViolations
        (fr, { p with monitoring :=
          { p.monitoring with violations_fixed := p.monitoring.violations_fixed + fr.fixed } })

/-- One iteration of the `monitor_loop` body in `_start_monitoring`
(lines 167-182), up to the sleep.  The three awaited engine calls are
parameters; the body has no try/except, so the first call that raises
aborts the tick (and kills the loop task): subsequent updates of
`monitoring_data` do not happen. -/
def monitorTick (health : Except String (List (String × Bool)))
    (stats : Except String SearchStats) (report : Except String RuleReport)
    (m : MonitoringData) : Except String MonitoringData :=
  match health with
  | .error e => .error e
  | .ok h =>
      let m1 := { m with databases_online := (h.filter (fun kv : String × Bool => kv.2)).length }
      match stats with
      | .error e => .error e
      | .ok s =>
          let m2 := { m1 with search_stats := some s }
          match report with
          | .error e => .error e
          | .ok r => .ok { m2 with rule_report := some r }

/-- Outcome of an HTTP handler: either a response was sent (via
`send_response`/`send_error` with a status code and body), or an
exception escaped the handler unhandled. -/
inductive HttpOutcome where
  | response (code : Nat) (body : String)
  | unhandled (msg : String)
deriving DecidableEq, Repr

/-- `DecentralizedAPIHandler._handle_status` (lines 276-284): no
try/except, so an orchestrator error escapes unhandled; on success it
sends 200 with the status JSON. -/
def handleStatus (op : Except String String) : HttpOutcome :=
  match op with
  | .error e => .unhandled e
  | .ok body => .response 200 body

/-- Extraction of the `q` parameter in `_handle_search` (line 289):
`params.get('q', [''])[0]` — missing key yields the empty string. -/
def qParam (params : List (String × List String)) : String :=
  ((((params.find? (fun kv => kv.1 = "q")).map Prod.snd).getD [""]).headD "")

/-- `DecentralizedAPIHandler._handle_search` (lines 286-301): empty `q`
(Python falsiness) sends 400 and returns before calling the platform;
otherwise the search is awaited with no try/except, so an error escapes
unhandled and success sends 200. -/
def handleSearch (q : String) (op : Except String String) : HttpOutcome :=
  if q = "" then .response 400 "Missing query parameter"
  else
    match op with
    | .error e => .unhandled e
    | .ok body => .response 200 body

/-- `DecentralizedAPIHandler._handle_enforce` (lines 303-321): the whole
body is inside try/except, so a parse failure or an orchestrator error
sends 500 with the message; success sends 200. -/
def handleEnforce (parsed : Except String (List (String × String)))
    (op : Except String String) : HttpOutcome :=
  match parsed with
  | .error e => .response 500 e
  | .ok _data =>
      match op with
      | .error e => .response 500 e
      | .ok body => .response 200 body

/-- `DecentralizedAPIHandler._handle_query` (lines 323-346): inside
try/except.  The query string is read only from the `sql` key
(`data.get('sql')`); a missing key or empty string (Python `if not sql`)
sends 400.  Otherwise the query runs; an error sends 500, success 200. -/
def handleQuery (parsed : Except String (List (String × String)))
    (op : Except String String) : HttpOutcome :=
  match parsed with
  | .error e => .response 500 e
  | .ok data =>
      match data.find? (fun kv => kv.1 = "sql") with
      | none => .response 400 "Missing SQL query"
      | some kv =>
          if kv.2 = "" then .response 400 "Missing SQL query"
          else
            match op with
            | .error e => .response 500 e
            | .ok body => .response 200 body

theorem critical_foldl_acc (vs : List (List Violation)) (acc : List Violation) :
    vs.foldl (fun a fv => a ++ fv.filter (fun v => v.severity == "critical")) acc
      = acc ++ vs.foldl (fun a fv => a ++ fv.filter (fun v => v.severity == "critical")) [] := by
  induction vs generalizing acc with
  | nil => simp
  | cons fv rest ih =>
      simp only [List.foldl_cons, List.nil_append]
      rw [ih, ih (fv.filter _)]
      simp [List.append_assoc]

theorem criticalViolations_eq_flatten (vs : List (List Violation)) :
    criticalViolations vs
      = (vs.map (fun fv => fv.filter (fun v => v.severity == "critical"))).flatten := by
  induction vs with
  | nil => rfl
  | cons fv rest ih =>
      unfold criticalViolations at ih ⊢
      simp only [List.foldl_cons, List.nil_append, List.map_cons, List.flatten_cons]
      rw [critical_foldl_acc, ih]

/-- C1: the sharding rule registered for `search_index` is a pure
function of the `doc_id` value (and the fixed shard count 4): two
evaluations on params maps carrying the same `doc_id` resolve to the
same shard name, for any fixed process-wide hash function. -/
theorem c1_routing_deterministic (pyhash : String → Int)
    (p1 p2 : List (String × String))
    (hdoc : dictGet p1 "doc_id" "" = dictGet p2 "doc_id" "") :
    searchIndexRule pyhash p1 = searchIndexRule pyhash p2 := by
  unfold searchIndexRule
  rw [hdoc]

theorem c1_routing_deterministic_witness :
    dictGet [("doc_id", "alpha")] "doc_id" ""
        = dictGet [("doc_id", "alpha"), ("extra", "beta")] "doc_id" "" ∧
    searchIndexRule (fun s => (s.length : Int)) [("doc_id", "alpha")]
        = searchIndexRule (fun s => (s.length : Int)) [("doc_id", "alpha"), ("extra", "beta")] :=
  ⟨by decide, c1_routing_deterministic (fun s => (s.length : Int)) _ _ (by decide)⟩

/-- C2: for every params map (including one lacking the `doc_id` key)
and every hash function, the `search_index` routing function returns a
name among those registered during `_setup_databases`, namely one of
`search_shard_0 .. search_shard_3`, so the fail-closed routing-error
branch is unreachable after setup. -/
theorem c2_routing_target_registered (pyhash : String → Int)
    (params : List (String × String)) :
    searchIndexRule pyhash params ∈ setupDatabaseNames := by
  unfold searchIndexRule
  have h0 : 0 ≤ pyhash (dictGet params "doc_id" "") % 4 :=
    Int.emod_nonneg _ (by norm_num)
  have h4 : pyhash (dictGet params "doc_id" "") % 4 < 4 :=
    Int.emod_lt_of_pos _ (by norm_num)
  have hcase : pyhash (dictGet params "doc_id" "") % 4 = 0 ∨
      pyhash (dictGet params "doc_id" "") % 4 = 1 ∨
      pyhash (dictGet params "doc_id" "") % 4 = 2 ∨
      pyhash (dictGet params "doc_id" "") % 4 = 3 := by omega
  rcases hcase with h | h | h | h <;> rw [h] <;> decide

/-- C6: the startup scan's auto-fix set is exactly the violations of
severity `critical`: a violation is collected by the
`_initial_rule_scan` loop iff it occurs in some file's violation list
and its severity is `critical`; `info` and `warning` violations are
left out. -/
theorem c6_initial_scan_fixes_exactly_critical
    (vs : List (List Violation)) (v : Violation) :
    v ∈ criticalViolations vs ↔ (∃ fv ∈ vs, v ∈ fv) ∧ v.severity = "critical" := by
  rw [criticalViolations_eq_flatten]
  simp only [List.mem_flatten, List.mem_map, List.mem_filter, beq_iff_eq]
  aesop

/-- C10: `get_status` reports the literal status `"online"` together
with all counter fields for every platform state — including one whose
`running` flag is cleared — and its result does not depend on the
`running` flag at all. -/
theorem c10_status_always_online (now : Nat) (p : Platform) (b : Bool) :
    (getStatus now p).status = "online" ∧
    (getStatus now p).queries_processed = p.monitoring.queries_processed ∧
    (getStatus now p).violations_fixed = p.monitoring.violations_fixed ∧
    (getStatus now p).databases_online = p.monitoring.databases_online ∧
    getStatus now { p with running := b } = getStatus now p :=
  ⟨rfl, rfl, rfl, rfl, rfl⟩

/-- A concrete platform whose `running` flag has been cleared, as after
`platform.running = False` on shutdown. -/
def stoppedPlatform : Platform := { monitoring := initMonitoring 0, running := false }

/-- A concrete freshly-initialized running platform. -/
def freshPlatform : Platform := { monitoring := initMonitoring 0, running := true }

/-- A concrete critical violation for counterexamples. -/
def sampleViolation : Violation :=
  { file := "f.py", rule := "no-eval", severity := "critical", description := "d" }

/-- An auto-fix behaviour that reports every submitted violation as fixed. -/
def fixAll : List Violation → FixResults := fun vs => ⟨vs.length, 0⟩

/-- C3 counterexample: on a concrete platform whose `running` flag is
cleared, `search` executes and succeeds (even bumping the query
counter) instead of failing with `PlatformNotRunning`, `query_database`
returns its rows, and `get_status` still reports `online`. -/
theorem c3_stopped_ops_counterexample :
    stoppedPlatform.running = false ∧
    searchOp (Except.ok [(3 : Nat)]) stoppedPlatform
      ≠ Except.error PlatformError.platformNotRunning ∧
    queryDatabase (Except.ok [(1 : Nat)]) stoppedPlatform
      = Except.ok ([(1 : Nat)], stoppedPlatform) ∧
    (getStatus 5 stoppedPlatform).status = "online" := by
  refine ⟨rfl, ?_, rfl, rfl⟩
  simp [searchOp]

/-- C3 amended: none of the exposed operations consults the `running`
flag, so after shutdown clears it they all still execute normally:
`search` and `query_database` succeed whenever the underlying engine
does (never producing `PlatformNotRunning`), `get_status` reports
`online`, and `enforce_rules` computes the same fix results whether the
flag is set or cleared. -/
theorem c3_ops_ignore_running (p : Platform) (rs rows : List Nat) (now : Nat)
    (fp : Option String) (sf : List Violation) (sd : List (List Violation))
    (fix : List Violation → FixResults) :
    searchOp (Except.ok rs) p ≠ Except.error PlatformError.platformNotRunning ∧
    queryDatabase (Except.ok rows) p = Except.ok (rows, p) ∧
    (getStatus now p).status = "online" ∧
    (enforceRules fp sf sd fix { p with running := false }).1
      = (enforceRules fp sf sd fix { p with running := true }).1 := by
  refine ⟨by simp [searchOp], rfl, rfl, ?_⟩
  cases fp <;> simp only [enforceRules] <;> split <;> rfl

/-- C4 counterexample: with a failing health sweep but succeeding
stats and report fetches, the monitor tick aborts with the propagated
exception and produces no updated monitoring data, so the search-stats
and rule-report portions are not updated in that tick. -/
theorem c4_tick_error_counterexample :
    monitorTick (Except.error "health probe failed")
        (Except.ok [("shard_0", 2)]) (Except.ok [("total", "0")])
        (initMonitoring 0)
      = Except.error "health probe failed" := rfl

/-- C4 amended: the monitor loop body has no per-sub-check exception
handling: an error raised by the health sweep aborts the tick before
the stats and report updates, an error in the stats fetch aborts before
the report update, an error in the report fetch aborts the final
update, and only a tick in which all three calls succeed updates all
three portions of the monitoring data. -/
theorem c4_tick_error_propagates (e : String)
    (health : List (String × Bool)) (stats : SearchStats) (report : RuleReport)
    (sx : Except String SearchStats) (rx : Except String RuleReport)
    (m : MonitoringData) :
    monitorTick (Except.error e) sx rx m = Except.error e ∧
    monitorTick (Except.ok health) (Except.error e) rx m = Except.error e ∧
    monitorTick (Except.ok health) (Except.ok stats) (Except.error e) m = Except.error e ∧
    monitorTick (Except.ok health) (Except.ok stats) (Except.ok report) m
      = Except.ok { m with
          databases_online := (health.filter (fun kv : String × Bool => kv.2)).length
          search_stats := some stats
          rule_report := some report } :=
  ⟨rfl, rfl, rfl, rfl⟩

/-- C5 counterexample: when the status or search operation raises, the
corresponding handler (which has no try/except) lets the exception
escape unhandled instead of responding with HTTP 500. -/
theorem c5_status_handler_counterexample :
    handleStatus (Except.error "boom") = HttpOutcome.unhandled "boom" ∧
    handleSearch "hello" (Except.error "boom") = HttpOutcome.unhandled "boom" :=
  ⟨rfl, rfl⟩

/-- C5 amended: only the enforce and query handlers wrap their work in
try/except and respond 500 with the error message on an
orchestrator-level error; the status handler, and the search handler on
a non-empty query, let the error propagate unhandled. -/
theorem c5_handler_error_split (e q : String)
    (data : List (String × String)) (kv : String × String)
    (hq : q ≠ "")
    (hfind : data.find? (fun kv => kv.1 = "sql") = some kv)
    (hs : kv.2 ≠ "") :
    handleStatus (Except.error e) = HttpOutcome.unhandled e ∧
    handleSearch q (Except.error e) = HttpOutcome.unhandled e ∧
    handleEnforce (Except.ok data) (Except.error e) = HttpOutcome.response 500 e ∧
    handleQuery (Except.ok data) (Except.error e) = HttpOutcome.response 500 e := by
  refine ⟨rfl, ?_, rfl, ?_⟩
  · simp [handleSearch, hq]
  · simp [handleQuery, hfind, hs]

theorem c5_handler_error_split_witness :
    handleStatus (Except.error "down") = HttpOutcome.unhandled "down" ∧
    handleSearch "code" (Except.error "down") = HttpOutcome.unhandled "down" ∧
    handleEnforce (Except.ok [("sql", "SELECT 1")]) (Except.error "down")
      = HttpOutcome.response 500 "down" ∧
    handleQuery (Except.ok [("sql", "SELECT 1")]) (Except.error "down")
      = HttpOutcome.response 500 "down" :=
  c5_handler_error_split "down" "code" [("sql", "SELECT 1")] ("sql", "SELECT 1")
    (by decide) (by decide) (by decide)

/-- C7 counterexample: a well-formed JSON body supplying the query only
under the `query` key is rejected with HTTP 400 even though the
underlying query operation would succeed, because `_handle_query` reads
only `data.get('sql')`. -/
theorem c7_query_key_counterexample :
    handleQuery (Except.ok [("query", "SELECT 1")]) (Except.ok "rows")
      = HttpOutcome.response 400 "Missing SQL query" := rfl

/-- C7 amended: only the `sql` key is accepted: a body supplying a
non-empty query under `sql` succeeds with HTTP 200 and the rows, while
a body with no `sql` key — including one carrying the query only under
`query` — fails with HTTP 400. -/
theorem c7_query_requires_sql_key (data : List (String × String))
    (kv : String × String) (rows : String) (op : Except String String) :
    (data.find? (fun kv => kv.1 = "sql") = some kv → kv.2 ≠ "" → op = Except.ok rows →
      handleQuery (Except.ok data) op = HttpOutcome.response 200 rows) ∧
    (data.find? (fun kv => kv.1 = "sql") = none →
      handleQuery (Except.ok data) op = HttpOutcome.response 400 "Missing SQL query") := by
  constructor
  · intro hfind hne hop
    subst hop
    simp [handleQuery, hfind, hne]
  · intro hfind
    simp [handleQuery, hfind]

theorem c7_query_requires_sql_key_witness :
    handleQuery (Except.ok [("sql", "SELECT 1")]) (Except.ok "rows")
      = HttpOutcome.response 200 "rows" ∧
    handleQuery (Except.ok [("query", "SELECT 2")]) (Except.ok "rows")
      = HttpOutcome.response 400 "Missing SQL query" :=
  ⟨(c7_query_requires_sql_key [("sql", "SELECT 1")] ("sql", "SELECT 1") "rows"
        (Except.ok "rows")).1 (by decide) (by decide) rfl,
   (c7_query_requires_sql_key [("query", "SELECT 2")] ("sql", "x") "rows"
        (Except.ok "rows")).2 (by decide)⟩

/-- C8 counterexample: a single-file `enforce_rules` call that fixes
one violation reports `fixed = 1` but leaves the cumulative
`violations_fixed` counter unchanged at 0: the counter did not increase
by the number reported fixed. -/
theorem c8_single_file_counter_counterexample :
    (enforceRules (some "f.py") [sampleViolation] [] fixAll freshPlatform).1.fixed = 1 ∧
    (enforceRules (some "f.py") [sampleViolation] [] fixAll
        freshPlatform).2.monitoring.violations_fixed = 0 :=
  ⟨rfl, rfl⟩

/-- C8 amended: the cumulative counter is updated only by whole-tree
enforcement: a call without a file path increases `violations_fixed` by
exactly the number it reports fixed, while a call with a file path
returns the fix results and leaves the platform state — counter
included — untouched. -/
theorem c8_counter_updated_only_tree_scan (sf : List Violation)
    (sd : List (List Violation)) (fix : List Violation → FixResults)
    (p : Platform) (f : String) :
    (enforceRules none sf sd fix p).2.monitoring.violations_fixed
      = p.monitoring.violations_fixed + (enforceRules none sf sd fix p).1.fixed ∧
    (enforceRules (some f) sf sd fix p).2 = p := by
  constructor
  · simp only [enforceRules]
    split <;> rfl
  · simp only [enforceRules]
    split <;> rfl

/-- C9: the search handler validates `q` before calling the platform:
an absent `q` key yields the empty string, and an empty `q` is rejected
with HTTP 400 no matter what the search operation would have returned —
the operation is never consulted — while a non-empty `q` whose search
succeeds yields HTTP 200 with the result payload. -/
theorem c9_search_handler_validation (params : List (String × List String))
    (op : Except String String) (q body : String)
    (habsent : params.find? (fun kv => kv.1 = "q") = none)
    (hq : q ≠ "") (hop : op = Except.ok body) :
    qParam params = "" ∧
    handleSearch (qParam params) op = HttpOutcome.response 400 "Missing query parameter" ∧
    handleSearch "" op = HttpOutcome.response 400 "Missing query parameter" ∧
    handleSearch q op = HttpOutcome.response 200 body := by
  have hqp : qParam params = "" := by
    unfold qParam
    rw [habsent]
    rfl
  refine ⟨hqp, ?_, ?_, ?_⟩
  · rw [hqp]
    rfl
  · rfl
  · subst hop
    simp [handleSearch, hq]

theorem c9_search_handler_validation_witness :
    qParam [("other", ["x"])] = "" ∧
    handleSearch (qParam [("other", ["x"])]) (Except.ok "res")
      = HttpOutcome.response 400 "Missing query parameter" ∧
    handleSearch "" (Except.ok "res")
      = HttpOutcome.response 400 "Missing query parameter" ∧
    handleSearch "hello" (Except.ok "res") = HttpOutcome.response 200 "res" :=
  c9_search_handler_validation [("other", ["x"])] (Except.ok "res") "hello" "res"
    (by decide) (by decide) rfl

end DistributedSystem
